import Mathlib

/-!
Shallow embedding of the task-scheduler engine in src/app.py (class
TaskScheduler). Points in time are modelled as rational numbers of minutes
(the Python code works with datetime values of second/microsecond precision
and converts differences to hours by dividing seconds by 3600; with minutes
as the unit, an hour is 60 and a day is 1440). Numeric fields coming from
JSON (priority, estimated_duration) are likewise rationals. Every call the
Python code makes to datetime.now() during one engine operation is modelled
as one explicit parameter `now`, and the random uuid4 id generated in
create_task is an explicit parameter `task_id`. The mutable dict
self.tasks (insertion ordered, keyed by id) is modelled as an association
list passed in and returned by each operation.
-/

namespace TaskScheduler

/-- A point in time or a duration, in minutes. -/
abbrev Time := ℚ

/-- A stored task record, as built by create_task in src/app.py lines
87-106: after create every one of these keys is present, and update_task
merges values over them, so the record is total. `updated_at` is absent
until the first update, hence an Option. -/
structure Task where
  id : String
  title : String
  description : String
  priority : ℚ
  estimated_duration : ℚ
  deadline : Time
  scheduled_time : Time
  status : String
  created_at : Time
  tags : List String
  priority_score : ℚ
  updated_at : Option Time
deriving DecidableEq, Repr

/-- A caller-supplied JSON payload for create, update or suggest: every
field optional, read in the Python code with dict.get and a default.
The `id` field is here because update_task (line 159) merges the payload
into the stored record with dict.update, which overwrites the id key when
the caller supplies one. Unknown extra keys of the JSON object play no
role in any engine operation and are not modelled. -/
structure TaskData where
  id : Option String := none
  title : Option String := none
  description : Option String := none
  priority : Option ℚ := none
  estimated_duration : Option ℚ := none
  deadline : Option Time := none
  scheduled_time : Option Time := none
  status : Option String := none
  tags : Option (List String) := none
deriving DecidableEq, Repr

/-- View a full task record as a payload (all fields present), matching the
Python code passing the task dict itself to detect_conflicts and
suggest_optimal_time (lines 109 and 122). -/
def Task.toData (t : Task) : TaskData :=
  { id := some t.id
    title := some t.title
    description := some t.description
    priority := some t.priority
    estimated_duration := some t.estimated_duration
    deadline := some t.deadline
    scheduled_time := some t.scheduled_time
    status := some t.status
    tags := some t.tags }

/-- The task store self.tasks: a Python dict keyed by task id, iterated in
insertion order, modelled as an association list. -/
abbrev Store := List (String × Task)

/-- The keys of the store are pairwise distinct (true of a Python dict by
construction). -/
def storeKeysNodup (tasks : Store) : Prop := (tasks.map Prod.fst).Nodup

instance (tasks : Store) : Decidable (storeKeysNodup tasks) :=
  inferInstanceAs (Decidable ((tasks.map Prod.fst).Nodup))

/-- Dict lookup self.tasks[key]. -/
def storeLookup : Store → String → Option Task
  | [], _ => none
  | (k, v) :: rest, key => if k = key then some v else storeLookup rest key

/-- Dict assignment self.tasks[key] = v: replaces the value in place when
the key is present, appends at the end otherwise. -/
def storeInsert : Store → String → Task → Store
  | [], key, v => [(key, v)]
  | (k, w) :: rest, key, v =>
    if k = key then (key, v) :: rest else (k, w) :: storeInsert rest key v

/-- Dict removal self.tasks.pop(key). -/
def storeErase : Store → String → Store
  | [], _ => []
  | (k, w) :: rest, key => if k = key then rest else (k, w) :: storeErase rest key

/-- In-place mutation of the record stored under an existing key, as
update_task does through the task dict reference: the entry keyed by `key`
gets the new value, every other entry and the order are untouched. -/
def storeSet : Store → String → Task → Store
  | [], _, _ => []
  | (k, w) :: rest, key, v =>
    if k = key then (key, v) :: storeSet rest key v else (k, w) :: storeSet rest key v

/-- Rounding to 2 decimal places, the round(x, 2) on line 31. Modelled as
floor (100 x + 1/2) / 100; the Python float round resolves exact .005 ties
to even, a float artefact outside this rational model. -/
def round2 (x : ℚ) : ℚ := (⌊x * 100 + 1 / 2⌋ : ℚ) / 100

/-- calculate_priority_score, src/app.py lines 15-31. The deadline default
of line 18 never fires on a stored record (create always sets a deadline),
so the record field is read directly; datetime.now() of lines 18 and 22 is
the parameter `now`. time_until_deadline is in hours = minutes / 60. -/
def calculate_priority_score (task : Task) (now : Time) : ℚ :=
  let base_priority := task.priority
  let estimated_duration := task.estimated_duration
  let time_until_deadline := (task.deadline - now) / 60
  let urgency_factor := max 0 (10 - time_until_deadline / 24)
  let duration_factor := min (estimated_duration / 120) 2
  round2 (base_priority * 2 + urgency_factor + duration_factor)

/-- One conflict descriptor appended on lines 48-52. -/
structure Conflict where
  task_id : String
  title : String
  time : Time
deriving DecidableEq, Repr

/-- The loop body of detect_conflicts, lines 39-52: skip completed tasks,
report every stored task whose half-open interval overlaps the candidate
interval, in store iteration order. -/
def detectGo (new_start new_end : Time) : Store → List Conflict
  | [] => []
  | (task_id, task) :: rest =>
    if task.status = "completed" then
      detectGo new_start new_end rest
    else
      let task_start := task.scheduled_time
      let task_end := task_start + task.estimated_duration
      if new_start < task_end ∧ new_end > task_start then
        { task_id := task_id, title := task.title, time := task.scheduled_time }
          :: detectGo new_start new_end rest
      else
        detectGo new_start new_end rest

/-- detect_conflicts, src/app.py lines 33-54. The candidate is a payload:
scheduled_time defaults to now (line 36, datetime.now()), duration to 60.
Stored records always carry both fields, so the defaults of lines 43-44
never fire and the record fields are read directly. -/
def detect_conflicts (tasks : Store) (new_task : TaskData) (now : Time) : List Conflict :=
  let new_start := new_task.scheduled_time.getD now
  let new_end := new_start + new_task.estimated_duration.getD 60
  detectGo new_start new_end tasks

/-- The result dict of suggest_optimal_time, lines 72-76 and 81-85. -/
structure Suggestion where
  suggested_time : Time
  reason : String
  confidence : ℕ
deriving DecidableEq, Repr

/-- The while loop of suggest_optimal_time, lines 65-79, with the number of
remaining iterations made explicit as fuel. The loop starts at
current_time = now, runs while current_time < deadline and advances by one
hour (60 minutes), so it performs exactly ceil((deadline - now) / 60)
conflict checks before falling through to the near-deadline return; the
fuel below is chosen as exactly that count, so fuel reaches 0 precisely
when current_time >= deadline (lemma suggestGo_fuel_spec below). -/
def suggestGo (tasks : Store) (task : TaskData) (now : Time) : Time → ℕ → Suggestion
  | current_time, 0 =>
    { suggested_time := current_time
      reason := "Best available slot near deadline"
      confidence := 60 }
  | current_time, fuel + 1 =>
    let test_task := { task with scheduled_time := some current_time }
    if detect_conflicts tasks test_task now = [] then
      { suggested_time := current_time
        reason := "No conflicts detected"
        confidence := 95 }
    else
      suggestGo tasks task now (current_time + 60) fuel

/-- The exact number of iterations the while loop of lines 65-79 can make
starting from `current`. -/
def suggestFuel (deadline current : Time) : ℕ := (⌈(deadline - current) / 60⌉).toNat

/-- suggest_optimal_time, src/app.py lines 56-85: deadline defaults to
now + 7 days (line 59); the local `duration` of line 58 is never used and
is omitted. -/
def suggest_optimal_time (tasks : Store) (task : TaskData) (now : Time) : Suggestion :=
  let deadline := task.deadline.getD (now + 7 * 24 * 60)
  suggestGo tasks task now now (suggestFuel deadline now)

/-- The response dict of create_task, lines 114-123; suggestion is present
only when conflicts exist. -/
structure CreateResult where
  task : Task
  conflicts : List Conflict
  has_conflicts : Bool
  suggestion : Option Suggestion
deriving DecidableEq, Repr

/-- create_task, src/app.py lines 87-124. Defaults per lines 92-103; note
line 100 sets status to the literal string pending, ignoring any
caller-supplied status. Conflicts are computed on line 109 against the
store before the insert of line 112, while the suggestion of line 122 is
computed after the insert, against the store already holding the new task. -/
def create_task (task_data : TaskData) (task_id : String) (now : Time) (tasks : Store) :
    CreateResult × Store :=
  let task0 : Task :=
    { id := task_id
      title := task_data.title.getD "Untitled Task"
      description := task_data.description.getD ""
      priority := task_data.priority.getD 5
      estimated_duration := task_data.estimated_duration.getD 60
      deadline := task_data.deadline.getD (now + 7 * 24 * 60)
      scheduled_time := task_data.scheduled_time.getD now
      status := "pending"
      created_at := now
      tags := task_data.tags.getD []
      priority_score := 0
      updated_at := none }
  let task := { task0 with priority_score := calculate_priority_score task0 now }
  let conflicts := detect_conflicts tasks task.toData now
  let tasks' := storeInsert tasks task_id task
  let suggestion :=
    if conflicts.isEmpty then none
    else some (suggest_optimal_time tasks' task.toData now)
  ({ task := task
     conflicts := conflicts
     has_conflicts := !conflicts.isEmpty
     suggestion := suggestion },
   tasks')

/-- The filters dict of get_schedule; none models an absent filters
argument field (the /tasks route always passes both keys, with None and 0
standing for absent). -/
structure Filters where
  status : Option String := none
  priority_min : Option ℚ := none
deriving DecidableEq, Repr

/-- The summary dict of get_schedule, lines 143-150. -/
structure Summary where
  high_priority : ℕ
  medium_priority : ℕ
  low_priority : ℕ
  pending : ℕ
  in_progress : ℕ
  completed : ℕ
deriving DecidableEq, Repr

/-- The response dict of get_schedule, lines 140-151. -/
structure Schedule where
  total_tasks : ℕ
  tasks : List Task
  summary : Summary
deriving DecidableEq, Repr

/-- Descending order on priority_score, the sort key of line 138
(key = priority_score, reverse = True). -/
def scoreGE (a b : Task) : Prop := b.priority_score ≤ a.priority_score

instance : DecidableRel scoreGE := fun a b => by
  unfold scoreGE; infer_instance

instance : IsTotal Task scoreGE :=
  ⟨fun a b => le_total b.priority_score a.priority_score⟩

instance : IsTrans Task scoreGE :=
  ⟨fun _ _ _ hab hbc => le_trans hbc hab⟩

/-- The filter stage of get_schedule, lines 130-135. The truthiness tests
(if filters.get of line 132 and 134) mean an absent filters dict, an
absent or empty-string status and an absent or zero priority_min all
leave the list unfiltered. -/
def applyFilters (filters : Option Filters) (tasks_list : List Task) : List Task :=
  match filters with
  | none => tasks_list
  | some f =>
    let l1 :=
      match f.status with
      | some s => if s ≠ "" then tasks_list.filter (fun (t : Task) => t.status == s) else tasks_list
      | none => tasks_list
    match f.priority_min with
    | some p => if p ≠ 0 then l1.filter (fun (t : Task) => decide (p ≤ t.priority)) else l1
    | none => l1

/-- The per-task predicate the filter stage amounts to: status must equal a
truthy status filter and priority must reach a truthy priority_min
(lemma applyFilters_eq_filter below). -/
def matchesFilters (filters : Option Filters) (t : Task) : Bool :=
  match filters with
  | none => true
  | some f =>
    (match f.status with
     | some s => if s ≠ "" then t.status == s else true
     | none => true)
    && (match f.priority_min with
        | some p => if p ≠ 0 then decide (p ≤ t.priority) else true
        | none => true)

/-- get_schedule, src/app.py lines 126-151. list(self.tasks.values()) on
line 128 copies the values into a fresh list, so the sort of line 138
reorders only that copy and the store itself is returned unchanged. The
summary of lines 143-150 counts over the filtered list. Python list.sort
is a stable sort; it is modelled with insertionSort, which likewise sorts
the list into scoreGE order (stability is not relied on by any claim). -/
def get_schedule (filters : Option Filters) (tasks : Store) : Schedule × Store :=
  let tasks_list := tasks.map Prod.snd
  let sorted := (applyFilters filters tasks_list).insertionSort scoreGE
  ({ total_tasks := sorted.length
     tasks := sorted
     summary :=
       { high_priority := (sorted.filter fun t => decide (8 ≤ t.priority)).length
         medium_priority :=
           (sorted.filter fun t => decide (4 ≤ t.priority) && decide (t.priority < 8)).length
         low_priority := (sorted.filter fun t => decide (t.priority < 4)).length
         pending := (sorted.filter fun t => t.status == "pending").length
         in_progress := (sorted.filter fun t => t.status == "in_progress").length
         completed := (sorted.filter fun t => t.status == "completed").length } },
   tasks)

/-- The dict merge task.update(updates) of line 159 over the modelled
fields: every key present in the payload overwrites the stored value,
including the id key. -/
def applyUpdates (task : Task) (updates : TaskData) : Task :=
  { task with
    id := updates.id.getD task.id
    title := updates.title.getD task.title
    description := updates.description.getD task.description
    priority := updates.priority.getD task.priority
    estimated_duration := updates.estimated_duration.getD task.estimated_duration
    deadline := updates.deadline.getD task.deadline
    scheduled_time := updates.scheduled_time.getD task.scheduled_time
    status := updates.status.getD task.status
    tags := updates.tags.getD task.tags }

/-- update_task, src/app.py lines 153-165: error when the id is absent
(store unchanged), otherwise merge the payload into the stored record in
place, recompute priority_score on the merged record, set updated_at. -/
def update_task (task_id : String) (updates : TaskData) (now : Time) (tasks : Store) :
    Option Task × Store :=
  match storeLookup tasks task_id with
  | none => (none, tasks)
  | some task =>
    let merged := applyUpdates task updates
    let merged :=
      { merged with
        priority_score := calculate_priority_score (applyUpdates task updates) now
        updated_at := some now }
    (some merged, storeSet tasks task_id merged)

/-- delete_task, src/app.py lines 167-173: error when the id is absent
(store unchanged), otherwise pop and return the record. -/
def delete_task (task_id : String) (tasks : Store) : Option Task × Store :=
  match storeLookup tasks task_id with
  | none => (none, tasks)
  | some task => (some task, storeErase tasks task_id)

/-! Concrete data used by the witnesses and counterexamples below. All
times are rational minutes; every store here is keyed consistently. -/

/-- A task whose deadline lies one day before the reference time, used to
witness the uncapped-urgency part of C5. -/
def c5task : Task :=
  { id := "t", title := "T", description := "", priority := 5
    estimated_duration := 60, deadline := 0, scheduled_time := 0
    status := "pending", created_at := 0, tags := []
    priority_score := 0, updated_at := none }

/-- A payload whose deadline is already past, witnessing C9. -/
def c9data : TaskData := { deadline := some 0 }

/-- A create payload that asks for a non-default status. -/
def c2data : TaskData := { status := some "in_progress" }

/-- A stored task used by the C3, C6 and C8 stores: pending, scheduled at
time 0 for 60 minutes. -/
def c3task : Task :=
  { id := "a1", title := "A", description := "", priority := 5
    estimated_duration := 60, deadline := 10080, scheduled_time := 0
    status := "pending", created_at := 0, tags := []
    priority_score := 0, updated_at := none }

/-- A one-task store keyed by a1. -/
def c3store : Store := [("a1", c3task)]

/-- An update payload over the documented field set only. -/
def c3updates : TaskData := { title := some "B" }

/-- A stored task whose stored score is exactly the score the formula
yields at time 0, witnessing C4. -/
def c4task : Task :=
  { id := "a1", title := "A", description := "", priority := 5
    estimated_duration := 60, deadline := 14400, scheduled_time := 0
    status := "pending", created_at := 0, tags := []
    priority_score := 21/2, updated_at := none }

/-- A one-task store holding c4task. -/
def c4store : Store := [("a1", c4task)]

/-- A candidate payload overlapping c3task, witnessing C6. -/
def c6cand : TaskData := { scheduled_time := some 30, estimated_duration := some 60 }

/-- A second stored task, completed, keyed by b2, for the C8 store. -/
def c8task2 : Task :=
  { id := "b2", title := "B", description := "", priority := 7
    estimated_duration := 30, deadline := 10080, scheduled_time := 10
    status := "completed", created_at := 0, tags := []
    priority_score := 0, updated_at := none }

/-- A two-task store for the C8 witness. -/
def c8store : Store := [("a1", c3task), ("b2", c8task2)]

/-- The create payload of the C1 counterexample: scheduled at minute 30
for 120 minutes with deadline at minute 180, overlapping c3task. -/
def c1data : TaskData :=
  { scheduled_time := some 30, estimated_duration := some 120, deadline := some 180 }

/-- The task record create_task builds from c1data at time 0 (its
priority_score is round2 of 5 * 2 + (10 - 3 / 24) + min (120 / 120) 2 =
round2 of 20.875 = 20.88 = 522 / 25). -/
def c1B : Task :=
  { id := "b1", title := "Untitled Task", description := "", priority := 5
    estimated_duration := 120, deadline := 180, scheduled_time := 30
    status := "pending", created_at := 0, tags := []
    priority_score := 522/25, updated_at := none }

/-! Helper lemmas about the store operations. -/

theorem storeLookup_eq_none_of_not_mem_keys {tasks : Store} {key : String}
    (h : key ∉ tasks.map Prod.fst) : storeLookup tasks key = none := by
  induction tasks with
  | nil => rfl
  | cons p rest ih =>
    obtain ⟨a, b⟩ := p
    simp only [List.map_cons, List.mem_cons, not_or] at h
    have hne : a ≠ key := fun hc => h.1 hc.symm
    simp only [storeLookup, if_neg hne]
    exact ih h.2

theorem storeLookup_storeInsert_self (tasks : Store) (key : String) (v : Task) :
    storeLookup (storeInsert tasks key v) key = some v := by
  induction tasks with
  | nil => simp [storeInsert, storeLookup]
  | cons p rest ih =>
    obtain ⟨a, b⟩ := p
    by_cases h : a = key
    · simp [storeInsert, h, storeLookup]
    · simp [storeInsert, h, storeLookup, ih]

theorem mem_of_storeLookup_eq_some {tasks : Store} {key : String} {v : Task}
    (h : storeLookup tasks key = some v) : (key, v) ∈ tasks := by
  induction tasks with
  | nil => simp [storeLookup] at h
  | cons p rest ih =>
    obtain ⟨a, b⟩ := p
    by_cases hk : a = key
    · subst hk
      simp only [storeLookup, if_pos rfl, Option.some.injEq] at h
      simp at h
      subst h
      exact List.mem_cons_self _ _
    · simp only [storeLookup, if_neg hk] at h
      exact List.mem_cons_of_mem _ (ih h)

theorem storeLookup_eq_some_of_mem {tasks : Store} {key : String} {v : Task}
    (hnd : storeKeysNodup tasks) (h : (key, v) ∈ tasks) :
    storeLookup tasks key = some v := by
  induction tasks with
  | nil => simp at h
  | cons p rest ih =>
    obtain ⟨a, b⟩ := p
    simp only [storeKeysNodup, List.map_cons, List.nodup_cons] at hnd
    rcases List.mem_cons.mp h with heq | hmem
    · cases heq
      simp [storeLookup]
    · have hne : a ≠ key := by
        intro heq
        subst heq
        exact hnd.1 (List.mem_map_of_mem Prod.fst hmem)
      simp only [storeLookup, if_neg hne]
      exact ih hnd.2 hmem

theorem storeLookup_storeErase_ne (tasks : Store) (key other : String) (hne : other ≠ key) :
    storeLookup (storeErase tasks key) other = storeLookup tasks other := by
  induction tasks with
  | nil => simp [storeErase, storeLookup]
  | cons p rest ih =>
    obtain ⟨a, b⟩ := p
    by_cases h : a = key
    · subst h
      have hao : a ≠ other := fun hc => hne hc.symm
      simp [storeErase, storeLookup, if_neg hao, ih]
    · by_cases h2 : a = other
      · subst h2
        simp [storeErase, if_neg h, storeLookup]
      · simp [storeErase, if_neg h, storeLookup, if_neg h2, ih]

theorem storeLookup_storeErase_self {tasks : Store} {key : String}
    (hnd : storeKeysNodup tasks) :
    storeLookup (storeErase tasks key) key = none := by
  induction tasks with
  | nil => simp [storeErase, storeLookup]
  | cons p rest ih =>
    obtain ⟨a, b⟩ := p
    simp only [storeKeysNodup, List.map_cons, List.nodup_cons] at hnd
    by_cases h : a = key
    · subst h
      simp only [storeErase, if_pos rfl]
      exact storeLookup_eq_none_of_not_mem_keys hnd.1
    · simp only [storeErase, if_neg h, storeLookup, if_neg h]
      exact ih hnd.2

theorem storeLookup_storeSet_self {tasks : Store} {key : String} {t v : Task}
    (h : storeLookup tasks key = some t) :
    storeLookup (storeSet tasks key v) key = some v := by
  induction tasks with
  | nil => simp [storeLookup] at h
  | cons p rest ih =>
    obtain ⟨a, b⟩ := p
    by_cases hk : a = key
    · subst hk
      simp [storeSet, storeLookup]
    · simp only [storeLookup, if_neg hk] at h
      simp only [storeSet, if_neg hk, storeLookup, if_neg hk]
      exact ih h

theorem storeLookup_storeSet_ne (tasks : Store) (key other : String) (v : Task)
    (hne : other ≠ key) :
    storeLookup (storeSet tasks key v) other = storeLookup tasks other := by
  induction tasks with
  | nil => simp [storeSet, storeLookup]
  | cons p rest ih =>
    obtain ⟨a, b⟩ := p
    by_cases hk : a = key
    · subst hk
      have hao : a ≠ other := fun hc => hne hc.symm
      simp only [storeSet, if_pos rfl, storeLookup, if_neg hao]
      exact ih
    · by_cases h2 : a = other
      · subst h2
        simp [storeSet, if_neg hk, storeLookup]
      · simp only [storeSet, if_neg hk, storeLookup, if_neg h2]
        exact ih

/-! Helper lemmas about conflict detection and the suggestion loop. -/

/-- The loop of detect_conflicts is a filter of the store followed by the
construction of the descriptors, in store order. -/
theorem detectGo_eq_filter_map (s e : Time) (l : Store) :
    detectGo s e l =
      (l.filter fun p =>
        decide (¬ p.2.status = "completed") &&
          (decide (s < p.2.scheduled_time + p.2.estimated_duration) &&
            decide (e > p.2.scheduled_time))).map
        (fun p => { task_id := p.1, title := p.2.title, time := p.2.scheduled_time }) := by
  induction l with
  | nil => rfl
  | cons p rest ih =>
    obtain ⟨tid, t⟩ := p
    by_cases hc : t.status = "completed"
    · simp [detectGo, hc, ih]
    · by_cases ho : s < t.scheduled_time + t.estimated_duration ∧ e > t.scheduled_time
      · simp [detectGo, hc, ho, ih, ho.1, ho.2]
      · rw [Classical.not_and_iff_or_not_not] at ho
        rcases ho with ho | ho
        · simp [detectGo, hc, ho, ih]
        · simp [detectGo, hc, ho, ih]

theorem suggestFuel_eq_zero_iff (d c : Time) : suggestFuel d c = 0 ↔ d ≤ c := by
  unfold suggestFuel
  rw [Int.toNat_eq_zero]
  rw [show ((0 : ℤ) : ℤ) = ((0 : ℤ)) from rfl]
  rw [Int.ceil_le]
  push_cast
  rw [div_le_iff₀ (by norm_num : (0:ℚ) < 60)]
  constructor <;> intro h <;> linarith

theorem suggestFuel_succ {d c : Time} (h : c < d) :
    suggestFuel d c = suggestFuel d (c + 60) + 1 := by
  unfold suggestFuel
  have h1 : (d - (c + 60)) / 60 = (d - c) / 60 - 1 := by ring
  rw [h1, Int.ceil_sub_one]
  have h2 : 0 < ⌈(d - c) / 60⌉ := by
    rw [Int.ceil_pos]
    exact div_pos (by linarith) (by norm_num)
  omega

/-- Fidelity of the fuelled loop to the while loop of lines 65-79: with
fuel = suggestFuel deadline current, the function satisfies exactly the
defining equations of the while loop — when current has reached the
deadline it returns the near-deadline result without touching the store,
and otherwise it performs one conflict check and either returns or
advances one hour with the matching fuel. -/
theorem suggestGo_fuel_spec (tasks : Store) (task : TaskData) (now d c : Time) :
    (d ≤ c → suggestGo tasks task now c (suggestFuel d c) =
        { suggested_time := c, reason := "Best available slot near deadline", confidence := 60 })
    ∧ (c < d → suggestGo tasks task now c (suggestFuel d c) =
        if detect_conflicts tasks { task with scheduled_time := some c } now = [] then
          { suggested_time := c, reason := "No conflicts detected", confidence := 95 }
        else suggestGo tasks task now (c + 60) (suggestFuel d (c + 60))) := by
  constructor
  · intro h
    rw [(suggestFuel_eq_zero_iff d c).mpr h]
    rfl
  · intro h
    rw [suggestFuel_succ h]
    rfl

/-! Claim theorems. -/

/-- C5: for every task with priority p, deadline d and estimated duration m
minutes, and every time now, calculate_priority_score equals
round(p * 2 + max(0, 10 - ((d - now in hours) / 24)) + min(m / 120, 2), 2),
and a deadline in the past pushes the urgency term strictly above 10 with
no upper cap. -/
theorem C5_priority_score_formula (task : Task) (now : Time) :
    calculate_priority_score task now =
      round2 (task.priority * 2
        + max 0 (10 - ((task.deadline - now) / 60) / 24)
        + min (task.estimated_duration / 120) 2)
    ∧ (task.deadline < now →
        10 < max 0 (10 - ((task.deadline - now) / 60) / 24)) := by
  constructor
  · rfl
  · intro h
    have hx : (task.deadline - now) / 60 / 24 < 0 :=
      div_neg_of_neg_of_pos
        (div_neg_of_neg_of_pos (by linarith) (by norm_num)) (by norm_num)
    calc (10:ℚ) < 10 - (task.deadline - now) / 60 / 24 := by linarith
      _ ≤ max 0 (10 - (task.deadline - now) / 60 / 24) := le_max_right _ _

/-- Witness for C5 at a concrete overdue task. -/
theorem C5_witness :
    c5task.deadline < (1440 : Time)
    ∧ (calculate_priority_score c5task 1440 =
        round2 (c5task.priority * 2
          + max 0 (10 - ((c5task.deadline - 1440) / 60) / 24)
          + min (c5task.estimated_duration / 120) 2)
      ∧ (c5task.deadline < 1440 →
          10 < max 0 (10 - ((c5task.deadline - 1440) / 60) / 24))) :=
  ⟨by decide, C5_priority_score_formula c5task 1440⟩

/-- C9: when the payload carries a deadline that is at or before now, the
while loop of suggest_optimal_time runs zero times: the result is the
initial current time with the near-deadline reason and confidence 60, and
it is the same whatever the store holds (no conflict check consults the
store). -/
theorem C9_suggest_past_deadline (tasks : Store) (task : TaskData) (now d : Time)
    (hd : task.deadline = some d) (hle : d ≤ now) :
    suggest_optimal_time tasks task now =
      { suggested_time := now, reason := "Best available slot near deadline", confidence := 60 }
    ∧ ∀ tasks2 : Store,
        suggest_optimal_time tasks2 task now = suggest_optimal_time tasks task now := by
  have key : ∀ ts : Store, suggest_optimal_time ts task now =
      { suggested_time := now, reason := "Best available slot near deadline",
        confidence := 60 } := by
    intro ts
    unfold suggest_optimal_time
    rw [hd]
    simp only [Option.getD_some]
    exact (suggestGo_fuel_spec ts task now d now).1 hle
  exact ⟨key tasks, fun ts2 => by rw [key ts2, key tasks]⟩

/-- Witness for C9 at a concrete payload and store. -/
theorem C9_witness :
    c9data.deadline = some 0
    ∧ (0 : Time) ≤ 60
    ∧ (suggest_optimal_time [] c9data 60 =
        { suggested_time := 60, reason := "Best available slot near deadline", confidence := 60 }
      ∧ ∀ tasks2 : Store,
          suggest_optimal_time tasks2 c9data 60 = suggest_optimal_time [] c9data 60) :=
  ⟨rfl, by decide, C9_suggest_past_deadline [] c9data 60 0 rfl (by decide)⟩

/-- C10: get_schedule is read-only — the store component it returns is the
very store it was given, so the set of stored ids and every stored record
are unchanged; the descending sort operates on the copied value list only. -/
theorem C10_get_schedule_readonly (filters : Option Filters) (tasks : Store) :
    (get_schedule filters tasks).2 = tasks
    ∧ ∀ key, storeLookup (get_schedule filters tasks).2 key = storeLookup tasks key :=
  ⟨rfl, fun _ => rfl⟩

/-- Counterexample to C2 as stated: a createTask call supplying
status = in_progress stores the task with status pending, not with the
caller-supplied value (line 100 of src/app.py hardcodes pending). -/
theorem C2_counterexample :
    c2data.status = some "in_progress"
    ∧ (storeLookup (create_task c2data "t1" 0 []).2 "t1").map Task.status = some "pending"
    ∧ ("pending" : String) ≠ "in_progress" :=
  ⟨rfl, rfl, by decide⟩

/-- C2 amended: the stored status of a created task is always pending,
whatever status the caller supplied. -/
theorem C2_amended_status_always_pending (task_data : TaskData) (task_id : String)
    (now : Time) (tasks : Store) :
    (create_task task_data task_id now tasks).1.task.status = "pending"
    ∧ storeLookup (create_task task_data task_id now tasks).2 task_id
        = some (create_task task_data task_id now tasks).1.task :=
  ⟨rfl, storeLookup_storeInsert_self tasks task_id _⟩

/-- Counterexample to C3 as stated: an updateTask call whose field set
contains an id key overwrites the id field of the stored record (the dict
merge of line 159 imposes no restriction on the keys), so the id field is
not immutable under arbitrary update field sets. -/
theorem C3_counterexample :
    storeLookup c3store "a1" = some c3task
    ∧ c3task.id = "a1"
    ∧ ((update_task "a1" { id := some "zz" } 0 c3store).1).map Task.id = some "zz"
    ∧ ("zz" : String) ≠ "a1" :=
  ⟨rfl, rfl, rfl, by decide⟩

/-- C3 amended: the id field survives every update whose field set does not
contain an id key (in particular every update over the documented field
set title, description, priority, estimated_duration, deadline,
scheduled_time, status, tags); an update that does supply an id key
overwrites the record field while the store key keeps the original id. -/
theorem C3_amended_id_immutable (task_id : String) (updates : TaskData) (now : Time)
    (tasks : Store) (task : Task)
    (hlook : storeLookup tasks task_id = some task) (hid : updates.id = none) :
    ∃ merged : Task,
      (update_task task_id updates now tasks).1 = some merged
      ∧ merged.id = task.id
      ∧ storeLookup (update_task task_id updates now tasks).2 task_id = some merged := by
  simp only [update_task, hlook]
  refine ⟨_, rfl, ?_, ?_⟩
  · simp [applyUpdates, hid]
  · exact storeLookup_storeSet_self hlook

/-- Witness for the amended C3 at a concrete store and update. -/
theorem C3_amended_witness :
    storeLookup c3store "a1" = some c3task
    ∧ c3updates.id = none
    ∧ ∃ merged : Task,
        (update_task "a1" c3updates 0 c3store).1 = some merged
        ∧ merged.id = c3task.id
        ∧ storeLookup (update_task "a1" c3updates 0 c3store).2 "a1" = some merged :=
  ⟨rfl, rfl, C3_amended_id_immutable "a1" c3updates 0 c3store c3task rfl rfl⟩

/-- C4: an empty update on a stored task id leaves every field of the
stored record unchanged except updated_at, and the recomputed
priority_score equals the previously stored one (the stored score was
computed by the same formula at the same reference time, so recomputation
reproduces it). -/
theorem C4_empty_update_roundtrip (task_id : String) (now : Time) (tasks : Store)
    (task : Task)
    (hlook : storeLookup tasks task_id = some task)
    (hfresh : task.priority_score = calculate_priority_score task now) :
    (update_task task_id {} now tasks).1 = some { task with updated_at := some now }
    ∧ storeLookup (update_task task_id {} now tasks).2 task_id
        = some ({ task with updated_at := some now }) := by
  have happ : applyUpdates task {} = task := by
    cases task
    rfl
  have hm : ({ applyUpdates task {} with
      priority_score := calculate_priority_score (applyUpdates task {}) now
      updated_at := some now } : Task) = { task with updated_at := some now } := by
    rw [happ, ← hfresh]
  constructor
  · simp only [update_task, hlook]
    exact congrArg some hm
  · simp only [update_task, hlook]
    rw [hm]
    exact storeLookup_storeSet_self hlook

/-- Witness for C4 at a concrete store whose stored score is fresh. -/
theorem C4_witness :
    storeLookup c4store "a1" = some c4task
    ∧ c4task.priority_score = calculate_priority_score c4task 0
    ∧ ((update_task "a1" {} 0 c4store).1 = some { c4task with updated_at := some 0 }
      ∧ storeLookup (update_task "a1" {} 0 c4store).2 "a1"
          = some ({ c4task with updated_at := some 0 })) := by
  have hfresh : c4task.priority_score = calculate_priority_score c4task 0 := by
    norm_num [c4task, calculate_priority_score, round2, max_def, min_def]
  exact ⟨rfl, hfresh, C4_empty_update_roundtrip "a1" 0 c4store c4task rfl hfresh⟩

/-- Keys identify records: an association list with pairwise distinct keys
maps one key to at most one record. -/
theorem store_value_eq_of_nodup {tasks : Store} {key : String} {v w : Task}
    (hnd : storeKeysNodup tasks) (hv : (key, v) ∈ tasks) (hw : (key, w) ∈ tasks) :
    v = w := by
  have h1 := storeLookup_eq_some_of_mem hnd hv
  have h2 := storeLookup_eq_some_of_mem hnd hw
  rw [h1] at h2
  exact Option.some_injective _ h2

/-- C6: for a store with distinct keys, the descriptor of a stored task
appears in the detect_conflicts result exactly when that task is not
completed and the two half-open intervals overlap, i.e. candidate.start <
other.end and candidate.end > other.start; completed tasks are never
reported, and an empty result therefore means no stored task conflicts. -/
theorem C6_detect_conflicts_iff (tasks : Store) (cand : TaskData) (now : Time)
    (task_id : String) (task : Task)
    (hnd : storeKeysNodup tasks) (hmem : (task_id, task) ∈ tasks) :
    (({ task_id := task_id, title := task.title, time := task.scheduled_time } : Conflict)
        ∈ detect_conflicts tasks cand now)
      ↔ (¬ task.status = "completed"
          ∧ cand.scheduled_time.getD now < task.scheduled_time + task.estimated_duration
          ∧ cand.scheduled_time.getD now + cand.estimated_duration.getD 60
              > task.scheduled_time) := by
  unfold detect_conflicts
  rw [detectGo_eq_filter_map]
  constructor
  · intro h
    rcases List.mem_map.mp h with ⟨p, hp, heq⟩
    have hpf := List.mem_filter.mp hp
    obtain ⟨tid, t⟩ := p
    have htid : tid = task_id := congrArg Conflict.task_id heq
    subst htid
    have ht : t = task := store_value_eq_of_nodup hnd hpf.1 hmem
    subst ht
    have hc := hpf.2
    simp only [Bool.and_eq_true, decide_eq_true_eq] at hc
    exact ⟨hc.1, hc.2.1, hc.2.2⟩
  · intro hcond
    apply List.mem_map.mpr
    refine ⟨(task_id, task), List.mem_filter.mpr ⟨hmem, ?_⟩, rfl⟩
    simp only [Bool.and_eq_true, decide_eq_true_eq]
    exact ⟨hcond.1, hcond.2.1, hcond.2.2⟩

/-- Witness for C6 at a concrete one-task store and an overlapping
candidate. -/
theorem C6_witness :
    storeKeysNodup c3store
    ∧ ("a1", c3task) ∈ c3store
    ∧ ((({ task_id := "a1", title := c3task.title, time := c3task.scheduled_time } : Conflict)
          ∈ detect_conflicts c3store c6cand 0)
        ↔ (¬ c3task.status = "completed"
            ∧ c6cand.scheduled_time.getD 0 < c3task.scheduled_time + c3task.estimated_duration
            ∧ c6cand.scheduled_time.getD 0 + c6cand.estimated_duration.getD 60
                > c3task.scheduled_time)) :=
  ⟨by decide, List.mem_cons_self _ _,
    C6_detect_conflicts_iff c3store c6cand 0 "a1" c3task (by decide) (List.mem_cons_self _ _)⟩

/-- C8: for a store with distinct keys, delete_task fails exactly when the
id is absent (and then returns the store unchanged); when the id is
present it returns the removed record, the id no longer resolves
afterwards, and every other id resolves to the same record as before. -/
theorem C8_delete_task_spec (task_id : String) (tasks : Store)
    (hnd : storeKeysNodup tasks) :
    ((delete_task task_id tasks).1 = none ↔ task_id ∉ tasks.map Prod.fst)
    ∧ (storeLookup tasks task_id = none → (delete_task task_id tasks).2 = tasks)
    ∧ (∀ task : Task, storeLookup tasks task_id = some task →
        (delete_task task_id tasks).1 = some task
        ∧ storeLookup (delete_task task_id tasks).2 task_id = none
        ∧ ∀ other, other ≠ task_id →
            storeLookup (delete_task task_id tasks).2 other = storeLookup tasks other) := by
  refine ⟨?_, ?_, ?_⟩
  · constructor
    · intro h
      intro hk
      rcases List.mem_map.mp hk with ⟨p, hp, hfst⟩
      obtain ⟨k, v⟩ := p
      subst hfst
      have hlk := storeLookup_eq_some_of_mem hnd hp
      simp only [delete_task, hlk] at h
      exact Option.some_ne_none v h
    · intro h
      have hnone := storeLookup_eq_none_of_not_mem_keys h
      simp only [delete_task, hnone]
  · intro h
    simp only [delete_task, h]
  · intro task h
    refine ⟨?_, ?_, ?_⟩
    · simp only [delete_task, h]
    · show storeLookup (delete_task task_id tasks).2 task_id = none
      simp only [delete_task, h]
      exact storeLookup_storeErase_self hnd
    · intro other hne
      simp only [delete_task, h]
      exact storeLookup_storeErase_ne tasks task_id other hne

/-- Witness for C8 at a concrete two-task store. -/
theorem C8_witness :
    storeKeysNodup c8store
    ∧ (((delete_task "a1" c8store).1 = none ↔ "a1" ∉ c8store.map Prod.fst)
      ∧ (storeLookup c8store "a1" = none → (delete_task "a1" c8store).2 = c8store)
      ∧ (∀ task : Task, storeLookup c8store "a1" = some task →
          (delete_task "a1" c8store).1 = some task
          ∧ storeLookup (delete_task "a1" c8store).2 "a1" = none
          ∧ ∀ other, other ≠ "a1" →
              storeLookup (delete_task "a1" c8store).2 other = storeLookup c8store other)) :=
  ⟨by decide, C8_delete_task_spec "a1" c8store (by decide)⟩

/-- Two pointwise equal boolean predicates filter a list identically. -/
theorem filter_ext {p q : Task → Bool} (h : ∀ t, p t = q t) (l : List Task) :
    l.filter p = l.filter q := by
  induction l with
  | nil => rfl
  | cons a l ih => simp [List.filter_cons, h a, ih]

/-- The two truthiness-guarded filter passes of lines 130-135 amount to one
filter by the matchesFilters predicate. -/
theorem applyFilters_eq_filter (filters : Option Filters) (l : List Task) :
    applyFilters filters l = l.filter (matchesFilters filters) := by
  have triv : ∀ F : Option Filters, (∀ t : Task, matchesFilters F t = true) →
      l = l.filter (matchesFilters F) := by
    intro F hF
    exact ((filter_ext hF l).trans (List.filter_true l)).symm
  cases filters with
  | none =>
    simp only [applyFilters]
    exact triv none (fun t => rfl)
  | some f =>
    obtain ⟨st, pm⟩ := f
    cases st with
    | none =>
      cases pm with
      | none =>
        simp only [applyFilters]
        exact triv _ (fun t => rfl)
      | some p =>
        by_cases hp : p = 0
        · simp only [applyFilters]
          rw [if_neg (not_not_intro hp)]
          exact triv _ (fun t => by simp [matchesFilters, hp])
        · simp only [applyFilters]
          rw [if_pos hp]
          exact (filter_ext (fun t => by simp [matchesFilters, hp]) l).symm
    | some s =>
      by_cases hs : s = ""
      · subst hs
        cases pm with
        | none =>
          simp only [applyFilters]
          rw [if_neg (not_not_intro rfl)]
          exact triv _ (fun t => by simp [matchesFilters])
        | some p =>
          by_cases hp : p = 0
          · simp only [applyFilters]
            rw [if_neg (not_not_intro rfl), if_neg (not_not_intro hp)]
            exact triv _ (fun t => by simp [matchesFilters, hp])
          · simp only [applyFilters]
            rw [if_neg (not_not_intro rfl), if_pos hp]
            exact (filter_ext (fun t => by simp [matchesFilters, hp]) l).symm
      · cases pm with
        | none =>
          simp only [applyFilters]
          rw [if_pos hs]
          exact (filter_ext (fun t => by simp [matchesFilters, hs]) l).symm
        | some p =>
          by_cases hp : p = 0
          · simp only [applyFilters]
            rw [if_pos hs, if_neg (not_not_intro hp)]
            exact (filter_ext (fun t => by simp [matchesFilters, hs, hp]) l).symm
          · simp only [applyFilters]
            rw [if_pos hs, if_pos hp, List.filter_filter]
            exact (filter_ext (fun t => by
              simp only [matchesFilters, ne_eq, hs, hp, not_false_iff, if_true]
              rw [Bool.and_comm]) l).symm

/-- C7: get_schedule returns exactly the stored tasks that pass the status
filter and the priority_min filter (a truthy filter value is required, per
the truthiness tests of the code: an empty-string status or a zero
priority_min behaves as unsupplied), sorted by priority_score in
descending order, and its summary counts high (priority >= 8), medium
(4 <= priority < 8), low (priority < 4) tasks and the tasks of each
status among the returned tasks. -/
theorem C7_get_schedule_spec (filters : Option Filters) (tasks : Store) :
    ((get_schedule filters tasks).1.tasks).Perm
        ((tasks.map Prod.snd).filter (matchesFilters filters))
    ∧ List.Sorted scoreGE ((get_schedule filters tasks).1.tasks)
    ∧ (get_schedule filters tasks).1.summary.high_priority
        = ((tasks.map Prod.snd).filter (matchesFilters filters)).countP
            (fun t => decide (8 ≤ t.priority))
    ∧ (get_schedule filters tasks).1.summary.medium_priority
        = ((tasks.map Prod.snd).filter (matchesFilters filters)).countP
            (fun t => decide (4 ≤ t.priority) && decide (t.priority < 8))
    ∧ (get_schedule filters tasks).1.summary.low_priority
        = ((tasks.map Prod.snd).filter (matchesFilters filters)).countP
            (fun t => decide (t.priority < 4))
    ∧ (get_schedule filters tasks).1.summary.pending
        = ((tasks.map Prod.snd).filter (matchesFilters filters)).countP
            (fun t => t.status == "pending")
    ∧ (get_schedule filters tasks).1.summary.in_progress
        = ((tasks.map Prod.snd).filter (matchesFilters filters)).countP
            (fun t => t.status == "in_progress")
    ∧ (get_schedule filters tasks).1.summary.completed
        = ((tasks.map Prod.snd).filter (matchesFilters filters)).countP
            (fun t => t.status == "completed") := by
  refine ⟨?_, ?_, ?_, ?_, ?_, ?_, ?_, ?_⟩
  · show ((applyFilters filters (tasks.map Prod.snd)).insertionSort scoreGE).Perm _
    rw [applyFilters_eq_filter]
    exact List.perm_insertionSort _ _
  · show List.Sorted scoreGE ((applyFilters filters (tasks.map Prod.snd)).insertionSort scoreGE)
    exact List.sorted_insertionSort _ _
  · show (((applyFilters filters (tasks.map Prod.snd)).insertionSort scoreGE).filter
        (fun t => decide (8 ≤ t.priority))).length = _
    rw [applyFilters_eq_filter, ← List.countP_eq_length_filter]
    exact (List.perm_insertionSort _ _).countP_eq _
  · show (((applyFilters filters (tasks.map Prod.snd)).insertionSort scoreGE).filter
        (fun t => decide (4 ≤ t.priority) && decide (t.priority < 8))).length = _
    rw [applyFilters_eq_filter, ← List.countP_eq_length_filter]
    exact (List.perm_insertionSort _ _).countP_eq _
  · show (((applyFilters filters (tasks.map Prod.snd)).insertionSort scoreGE).filter
        (fun t => decide (t.priority < 4))).length = _
    rw [applyFilters_eq_filter, ← List.countP_eq_length_filter]
    exact (List.perm_insertionSort _ _).countP_eq _
  · show (((applyFilters filters (tasks.map Prod.snd)).insertionSort scoreGE).filter
        (fun t => t.status == "pending")).length = _
    rw [applyFilters_eq_filter, ← List.countP_eq_length_filter]
    exact (List.perm_insertionSort _ _).countP_eq _
  · show (((applyFilters filters (tasks.map Prod.snd)).insertionSort scoreGE).filter
        (fun t => t.status == "in_progress")).length = _
    rw [applyFilters_eq_filter, ← List.countP_eq_length_filter]
    exact (List.perm_insertionSort _ _).countP_eq _
  · show (((applyFilters filters (tasks.map Prod.snd)).insertionSort scoreGE).filter
        (fun t => t.status == "completed")).length = _
    rw [applyFilters_eq_filter, ← List.countP_eq_length_filter]
    exact (List.perm_insertionSort _ _).countP_eq _

/-! Concrete evaluation lemmas for the createTask scenario of C1:
store c3store holds task a1 over the interval of minutes 0 to 60, and
c1data asks for minutes 30 to 150 with deadline at minute 180. -/

theorem c1_task_eval : (create_task c1data "b1" 0 c3store).1.task = c1B := by
  simp only [create_task, c1data, c1B, Option.getD_some, Option.getD_none, Task.mk.injEq]
  norm_num [calculate_priority_score, round2, max_def, min_def]

theorem c1_conflicts_eval :
    (create_task c1data "b1" 0 c3store).1.conflicts
      = [{ task_id := "a1", title := "A", time := 0 }] := by
  simp only [create_task, c1data, Option.getD_some, Option.getD_none, Task.toData,
    detect_conflicts, detectGo, c3store, c3task]
  norm_num
  decide

theorem c1_store_eval :
    (create_task c1data "b1" 0 c3store).2 = [("a1", c3task), ("b1", c1B)] := by
  have e : (create_task c1data "b1" 0 c3store).2
      = storeInsert c3store "b1" ((create_task c1data "b1" 0 c3store).1.task) := rfl
  rw [e, c1_task_eval]
  simp [storeInsert, c3store]

theorem c1_fuel_eval : suggestFuel 180 0 = Nat.succ (Nat.succ (Nat.succ 0)) := by
  unfold suggestFuel
  norm_num
  decide

theorem c1_suggest_pre_eval :
    suggest_optimal_time c3store c1data 0
      = { suggested_time := 60, reason := "No conflicts detected", confidence := 95 } := by
  unfold suggest_optimal_time
  rw [show c1data.deadline = some 180 from rfl]
  simp only [Option.getD_some]
  rw [c1_fuel_eval]
  simp only [suggestGo]
  norm_num [detect_conflicts, detectGo, c3store, c3task, c1data]
  decide

theorem c1_suggest_post_eval :
    suggest_optimal_time [("a1", c3task), ("b1", c1B)] c1B.toData 0
      = { suggested_time := 180, reason := "Best available slot near deadline",
          confidence := 60 } := by
  unfold suggest_optimal_time
  rw [show c1B.toData.deadline = some 180 from rfl]
  simp only [Option.getD_some]
  rw [c1_fuel_eval]
  simp only [suggestGo]
  norm_num [detect_conflicts, detectGo, c3task, c1B, Task.toData]
  decide

/-- Counterexample to C1 as stated: in a store holding only task a1
(minutes 0 to 60), creating a task scheduled for minutes 30 to 150 with
deadline at minute 180 reports a conflict with a1, yet the returned
suggestion is the minute-180 near-deadline fallback with confidence 60,
while the slot-suggestion algorithm run on the submitted data against the
pre-insertion store returns minute 60 with confidence 95: the code runs
the suggestion only after inserting the new task (line 112 before line
122), so the hour-60 and hour-120 slots self-conflict with the task just
created. -/
theorem C1_counterexample :
    (create_task c1data "b1" 0 c3store).1.conflicts ≠ []
    ∧ suggest_optimal_time c3store c1data 0
        = { suggested_time := 60, reason := "No conflicts detected", confidence := 95 }
    ∧ (create_task c1data "b1" 0 c3store).1.suggestion
        = some { suggested_time := 180, reason := "Best available slot near deadline",
                 confidence := 60 }
    ∧ (create_task c1data "b1" 0 c3store).1.suggestion
        ≠ some (suggest_optimal_time c3store c1data 0) := by
  have hsugg : (create_task c1data "b1" 0 c3store).1.suggestion
      = some { suggested_time := 180, reason := "Best available slot near deadline",
               confidence := 60 } := by
    have e : (create_task c1data "b1" 0 c3store).1.suggestion
        = if ((create_task c1data "b1" 0 c3store).1.conflicts).isEmpty then none
          else some (suggest_optimal_time (create_task c1data "b1" 0 c3store).2
            ((create_task c1data "b1" 0 c3store).1.task).toData 0) := rfl
    rw [e, c1_conflicts_eval, c1_store_eval, c1_task_eval]
    simp only [List.isEmpty_cons, if_false, Bool.false_eq_true]
    rw [c1_suggest_post_eval]
  refine ⟨?_, c1_suggest_pre_eval, hsugg, ?_⟩
  · rw [c1_conflicts_eval]
    decide
  · rw [hsugg, c1_suggest_pre_eval]
    decide

/-- C1 amended: when the conflicts list of a createTask response is
non-empty, the suggestion equals the slot-suggestion algorithm run on the
created task record (the submitted data completed with defaults) against
the store as it is after the new task was inserted — so the per-slot
conflict checks do count the newly created task itself. -/
theorem C1_amended_suggestion_after_insert (task_data : TaskData) (task_id : String)
    (now : Time) (tasks : Store)
    (h : (create_task task_data task_id now tasks).1.conflicts ≠ []) :
    (create_task task_data task_id now tasks).1.suggestion
      = some (suggest_optimal_time (create_task task_data task_id now tasks).2
          ((create_task task_data task_id now tasks).1.task).toData now) := by
  have e : (create_task task_data task_id now tasks).1.suggestion
      = if ((create_task task_data task_id now tasks).1.conflicts).isEmpty then none
        else some (suggest_optimal_time (create_task task_data task_id now tasks).2
          ((create_task task_data task_id now tasks).1.task).toData now) := rfl
  rw [e, if_neg]
  intro hc
  exact h (List.isEmpty_iff.mp hc)

/-- Witness for the amended C1 at the concrete conflicting create call. -/
theorem C1_amended_witness :
    (create_task c1data "b1" 0 c3store).1.conflicts ≠ []
    ∧ (create_task c1data "b1" 0 c3store).1.suggestion
        = some (suggest_optimal_time (create_task c1data "b1" 0 c3store).2
            ((create_task c1data "b1" 0 c3store).1.task).toData 0) :=
  ⟨by rw [c1_conflicts_eval]; decide,
    C1_amended_suggestion_after_insert c1data "b1" 0 c3store
      (by rw [c1_conflicts_eval]; decide)⟩

end TaskScheduler
